import Mathlib

/-!
Shallow embedding of `discentem/bk_azureblob`, a small Go command-line
utility that transfers a single blob to or from Azure Blob Storage.

The repository has three revisions of the program; the latest one
(`part_000`, with the `progressbar` library) is embedded in full.  External
SDK calls (azidentity, azblob, os) are modelled by an oracle `SDKEnv`
giving the result of each call; each program operation is translated into a
pure Lean function that threads the client state, returns the Go result,
and records a trace of the external calls and console writes it performs,
in program order.
-/

/-- A Go `error` value: either an error returned by an external SDK / os
call (carried through unmodified), or an error constructed by the program
itself with `errors.New`. -/
inductive GoError
  | sdk (source : String)
  | progNew (msg : String)
deriving DecidableEq, Repr

/-- The error constructed by `Upload` for a nil file:
`errors.New("file cannot be nil")`. -/
def nilFileError : GoError := GoError.progNew "file cannot be nil"

/-- Result of `blob.GetProperties`: the model keeps the one field the
program reads, `ContentLength`. -/
structure BlobProps where
  contentLength : Int
deriving DecidableEq, Repr

/-- Result of `file.Stat()`: the model keeps the one field the program
reads, `Size()`. -/
structure FileStats where
  size : Int
deriving DecidableEq, Repr

/-- An `azblob.ContainerClient`, abstracted to the container URL it was
constructed from. -/
structure ContainerClient where
  url : String
deriving DecidableEq, Repr

/-- `AzureBlobCredentialOptions` (part_000 lines 19-21). -/
structure AzureBlobCredentialOptions where
  interactiveCredential : Bool
deriving DecidableEq, Repr

/-- `AzureBlobClient` (part_000 lines 24-31): connection parameters, the
cached container client, and the credential options. -/
structure AzureBlobClient where
  clientID : String
  tenantID : String
  storageAccount : String
  containerName : String
  containerClient : Option ContainerClient
  credentialOptions : AzureBlobCredentialOptions
deriving DecidableEq, Repr

/-- Oracle for the external calls the program makes: the result each
SDK / os call would return, plus the byte counts at which the SDK invokes
the `Progress` callback during a transfer. -/
structure SDKEnv where
  newInteractiveBrowserCredential : Except GoError Unit
  newDeviceCodeCredential : Except GoError Unit
  newChainedTokenCredential : Except GoError Unit
  newContainerClient : Except GoError Unit
  osCreate : Except GoError Unit
  getProperties : Except GoError BlobProps
  truncate : Except GoError Unit
  downloadBlobToFile : Except GoError Unit
  fileStat : Except GoError FileStats
  uploadFileToBlockBlob : Except GoError Unit
  downloadProgress : List Int
  uploadProgress : List Int

/-- The errors held by one oracle entry. -/
def errList {α : Type} : Except GoError α → List GoError
  | .error e => [e]
  | .ok _ => []

/-- All error values the external calls of an environment can produce:
an error "returned by the SDK" is exactly a member of this list. -/
def SDKEnv.errors (env : SDKEnv) : List GoError :=
  errList env.newInteractiveBrowserCredential ++
  errList env.newDeviceCodeCredential ++
  errList env.newChainedTokenCredential ++
  errList env.newContainerClient ++
  errList env.osCreate ++
  errList env.getProperties ++
  errList env.truncate ++
  errList env.downloadBlobToFile ++
  errList env.fileStat ++
  errList env.uploadFileToBlockBlob

/-- One step of the program's observable behaviour: an external call (with
the arguments the program passed and whether the call succeeded) or a
console write. -/
inductive Event
  | newInteractiveBrowserCredential (tenantID clientID redirectURL : String) (ok : Bool)
  | newDeviceCodeCredential (tenantID clientID : String) (ok : Bool)
  | newChainedTokenCredential (chainLength : Nat) (ok : Bool)
  | newContainerClient (url : String) (ok : Bool)
  | newBlobClient (asset : String)
  | newBlockBlobClient (blobPath : String)
  | osCreate (path : String) (ok : Bool)
  | getProperties (ok : Bool)
  | truncate (size : Int) (ok : Bool)
  | downloadBlobToFile (ok : Bool)
  | fileStat (ok : Bool)
  | uploadFileToBlockBlob (ok : Bool)
  | println (line : String)
  | consoleWrite (s : String)
deriving DecidableEq, Repr

/-- Constructor tag, used to state that no external call is re-attempted. -/
def Event.tag : Event → Nat
  | .newInteractiveBrowserCredential _ _ _ _ => 0
  | .newDeviceCodeCredential _ _ _ => 1
  | .newChainedTokenCredential _ _ => 2
  | .newContainerClient _ _ => 3
  | .newBlobClient _ => 4
  | .newBlockBlobClient _ => 5
  | .osCreate _ _ => 6
  | .getProperties _ => 7
  | .truncate _ _ => 8
  | .downloadBlobToFile _ => 9
  | .fileStat _ => 10
  | .uploadFileToBlockBlob _ => 11
  | .println _ => 12
  | .consoleWrite _ => 13

/-- Is the event an external call (as opposed to a console write)? -/
def Event.isCall : Event → Bool
  | .println _ => false
  | .consoleWrite _ => false
  | _ => true

/-- Did the step succeed?  Console writes and the infallible client
constructors count as succeeding. -/
def Event.callOK : Event → Bool
  | .newInteractiveBrowserCredential _ _ _ ok => ok
  | .newDeviceCodeCredential _ _ ok => ok
  | .newChainedTokenCredential _ ok => ok
  | .newContainerClient _ ok => ok
  | .osCreate _ ok => ok
  | .getProperties ok => ok
  | .truncate _ ok => ok
  | .downloadBlobToFile ok => ok
  | .fileStat ok => ok
  | .uploadFileToBlockBlob ok => ok
  | _ => true

/-- Is the event part of the authentication / client-construction flow? -/
def Event.isAuth : Event → Bool
  | .newInteractiveBrowserCredential _ _ _ _ => true
  | .newDeviceCodeCredential _ _ _ => true
  | .newChainedTokenCredential _ _ => true
  | .newContainerClient _ _ => true
  | _ => false

/-- The external calls of a trace. -/
def callsOf (tr : List Event) : List Event := tr.filter Event.isCall

/-- The console writes (progress-bar output) of a trace. -/
def writesOf : List Event → List String
  | [] => []
  | .consoleWrite s :: tr => s :: writesOf tr
  | _ :: tr => writesOf tr

/-! ### String helpers: Go's `strings.Replace(s, old, new, 1)` -/

/-- Replace the first occurrence of `pat` in a character list. -/
def replaceFirstAux (pat rep : List Char) : List Char → List Char
  | [] => []
  | c :: cs =>
    if pat.isPrefixOf (c :: cs) then rep ++ (c :: cs).drop pat.length
    else c :: replaceFirstAux pat rep cs

/-- Go `strings.Replace(s, pat, rep, 1)` for a nonempty `pat`: replace the
first occurrence of `pat` in `s` by `rep`, if any. -/
def replaceFirst (s pat rep : String) : String :=
  ⟨replaceFirstAux pat.data rep.data s.data⟩

/-- Does `pat` occur as a contiguous sublist? -/
def occursIn (pat : List Char) : List Char → Bool
  | [] => pat.isPrefixOf ([] : List Char)
  | c :: cs => pat.isPrefixOf (c :: cs) || occursIn pat cs

/-- The URL the SDK's device-code message contains. -/
def microsoftDeviceLoginURL : String := "https://microsoft.com/devicelogin"

/-- The shortlink the program substitutes for it. -/
def akaMSDeviceLoginURL : String := "https://aka.ms/devicelogin"

/-- The `UserPrompt` callback of `InitCredential` (part_000 lines 54-58):
the line printed to stdout for a device-code message.  It rewrites the
verification URL to the shortlink before printing. -/
def userPromptOutput (message : String) : String :=
  replaceFirst message microsoftDeviceLoginURL akaMSDeviceLoginURL

/-! ### Progress bar (external `schollz/progressbar` library, modelled) -/

/-- Model of `progressbar.ProgressBar`: maximum byte count, current byte
count, and description. -/
structure ProgressBar where
  maxBytes : Int
  current : Int
  desc : String
deriving DecidableEq, Repr

/-- `progressbar.DefaultBytesSilent(size, desc)`: a fresh bar at 0. -/
def ProgressBar.defaultBytesSilent (size : Int) (desc : String) : ProgressBar :=
  ⟨size, 0, desc⟩

/-- `progbar.Set64(n)`: set the current byte count. -/
def ProgressBar.set64 (p : ProgressBar) (n : Int) : ProgressBar :=
  { p with current := n }

/-- `progbar.String()`: the rendered bar (modelled as description plus
current/max byte counts). -/
def ProgressBar.render (p : ProgressBar) : String :=
  p.desc ++ " " ++ toString p.current ++ "/" ++ toString p.maxBytes

/-- `bytesTransferredFn` (part_000 lines 105-112): one invocation of the
returned closure sets the bar to the transferred byte count and writes the
rendered bar to stdout.  The `isDownload` and `size` parameters are unused
by the closure body in this revision. -/
def bytesTransferredFn (isDownload : Bool) (size : Int) (progbar : ProgressBar)
    (bytesTransferred : Int) : ProgressBar × String :=
  let pb := progbar.set64 bytesTransferred
  (pb, pb.render)

/-- The SDK invokes the `Progress` callback once per entry of `reports`;
returns the final bar state and the console writes performed. -/
def runProgress (isDownload : Bool) (size : Int) (pb : ProgressBar) :
    List Int → ProgressBar × List Event
  | [] => (pb, [])
  | n :: rest =>
    let (pb2, line) := bytesTransferredFn isDownload size pb n
    let (pbf, evs) := runProgress isDownload size pb2 rest
    (pbf, .consoleWrite line :: evs)

/-! ### The operations of part_000 -/

/-- The container URL built by `fmt.Sprintf` (part_000 line 78). -/
def containerURL (c : AzureBlobClient) : String :=
  "https://" ++ c.storageAccount ++ ".blob.core.windows.net/" ++ c.containerName

/-- `InitCredential` (part_000 lines 35-73): optionally construct an
interactive browser credential, then a device-code credential, then chain
them.  Returns the length of the credential chain (abstracting the chained
credential) and the trace. -/
def InitCredential (c : AzureBlobClient) (env : SDKEnv)
    (credOpts : AzureBlobCredentialOptions) : Except GoError Nat × List Event :=
  let step1 : Except GoError Nat × List Event :=
    if credOpts.interactiveCredential then
      match env.newInteractiveBrowserCredential with
      | .error e =>
        (.error e,
         [.newInteractiveBrowserCredential c.tenantID c.clientID "http://localhost:9090" false])
      | .ok _ =>
        (.ok 1,
         [.newInteractiveBrowserCredential c.tenantID c.clientID "http://localhost:9090" true])
    else (.ok 0, [])
  match step1 with
  | (.error e, tr) => (.error e, tr)
  | (.ok n, tr) =>
    match env.newDeviceCodeCredential with
    | .error e => (.error e, tr ++ [.newDeviceCodeCredential c.tenantID c.clientID false])
    | .ok _ =>
      let tr2 := tr ++ [.newDeviceCodeCredential c.tenantID c.clientID true]
      match env.newChainedTokenCredential with
      | .error e => (.error e, tr2 ++ [.newChainedTokenCredential (n + 1) false])
      | .ok _ => (.ok (n + 1), tr2 ++ [.newChainedTokenCredential (n + 1) true])

/-- `InitContainerClient` (part_000 lines 75-86): construct the container
client from the URL built out of the storage account and container name. -/
def InitContainerClient (c : AzureBlobClient) (env : SDKEnv) :
    Except GoError ContainerClient × List Event :=
  match env.newContainerClient with
  | .error e => (.error e, [.newContainerClient (containerURL c) false])
  | .ok _ => (.ok ⟨containerURL c⟩, [.newContainerClient (containerURL c) true])

/-- Result of `init` / `Download` / `Upload`: the (possibly updated)
client, the Go return value, and the trace. -/
structure InitResult where
  client : AzureBlobClient
  result : Except GoError Unit
  trace : List Event

/-- `init` (part_000 lines 89-103): if no container client is cached,
run the credential flow and the container-client constructor and cache the
result; otherwise do nothing. -/
def initClient (c : AzureBlobClient) (env : SDKEnv) : InitResult :=
  match c.containerClient with
  | some _ => ⟨c, .ok (), []⟩
  | none =>
    match InitCredential c env c.credentialOptions with
    | (.error e, tr) => ⟨c, .error e, tr⟩
    | (.ok _, tr) =>
      match InitContainerClient c env with
      | (.error e, tr2) => ⟨c, .error e, tr ++ tr2⟩
      | (.ok cc, tr2) => ⟨{ c with containerClient := some cc }, .ok (), tr ++ tr2⟩

/-- Result of `Download`: also records the final state of the destination
file — `none` if it was never created, `some len` if it exists with length
`len` (0 right after `os.Create`, the blob length after `Truncate`). -/
structure DownloadResult where
  client : AzureBlobClient
  result : Except GoError Unit
  trace : List Event
  destFile : Option Int

/-- `Download` (part_000 lines 115-146): init, make a blob client for the
asset, create the destination file, read the blob's properties, truncate
the file to the content length, download into it (reporting progress), and
print the final bar. -/
def Download (c : AzureBlobClient) (env : SDKEnv) (asset destination : String) :
    DownloadResult :=
  match initClient c env with
  | ⟨c1, .error e, tr⟩ => ⟨c1, .error e, tr, none⟩
  | ⟨c1, .ok _, tr⟩ =>
    let tr := tr ++ [.newBlobClient asset]
    match env.osCreate with
    | .error e => ⟨c1, .error e, tr ++ [.osCreate destination false], none⟩
    | .ok _ =>
      let tr := tr ++ [.osCreate destination true]
      match env.getProperties with
      | .error e => ⟨c1, .error e, tr ++ [.getProperties false], some 0⟩
      | .ok props =>
        let tr := tr ++ [.getProperties true]
        let size := props.contentLength
        match env.truncate with
        | .error e => ⟨c1, .error e, tr ++ [.truncate size false], some 0⟩
        | .ok _ =>
          let tr := tr ++ [.truncate size true]
          let desc := "Downloading " ++ asset
          let pb0 := ProgressBar.defaultBytesSilent size desc
          let pr := runProgress true size pb0 env.downloadProgress
          match env.downloadBlobToFile with
          | .error e =>
            ⟨c1, .error e, tr ++ pr.2 ++ [.downloadBlobToFile false], some size⟩
          | .ok _ =>
            ⟨c1, .ok (),
             tr ++ pr.2 ++ [.downloadBlobToFile true, .println pr.1.render],
             some size⟩

/-- Result of `Upload`. -/
structure UploadResult where
  client : AzureBlobClient
  result : Except GoError Unit
  trace : List Event

/-- `Upload` (part_000 lines 148-171): init, make a block-blob client for
the blob path, reject a nil file, stat the file, upload it (reporting
progress), and print the final bar.  The file handle is abstracted to
`Option Unit` (`none` = nil). -/
def Upload (c : AzureBlobClient) (env : SDKEnv) (file : Option Unit)
    (blobPath : String) : UploadResult :=
  match initClient c env with
  | ⟨c1, .error e, tr⟩ => ⟨c1, .error e, tr⟩
  | ⟨c1, .ok _, tr⟩ =>
    let tr := tr ++ [.newBlockBlobClient blobPath]
    match file with
    | none => ⟨c1, .error nilFileError, tr⟩
    | some _ =>
      match env.fileStat with
      | .error e => ⟨c1, .error e, tr ++ [.fileStat false]⟩
      | .ok stats =>
        let tr := tr ++ [.fileStat true]
        let size := stats.size
        let desc := "Uploading to " ++ blobPath
        let pb0 := ProgressBar.defaultBytesSilent size desc
        let pr := runProgress false size pb0 env.uploadProgress
        match env.uploadFileToBlockBlob with
        | .error e => ⟨c1, .error e, tr ++ pr.2 ++ [.uploadFileToBlockBlob false]⟩
        | .ok _ =>
          ⟨c1, .ok (),
           tr ++ pr.2 ++ [.uploadFileToBlockBlob true, .println pr.1.render]⟩

/-- `NewAzureBlobClientDefault` (part_000 lines 173-183). -/
def NewAzureBlobClientDefault (clientID tenantID containerName storageAccount : String) :
    AzureBlobClient :=
  { clientID := clientID
    tenantID := tenantID
    storageAccount := storageAccount
    containerName := containerName
    containerClient := none
    credentialOptions := ⟨false⟩ }

/-- `NewAzureBlobClientInteractive` (part_000 lines 185-189). -/
def NewAzureBlobClientInteractive (clientID tenantID containerName storageAccount : String) :
    AzureBlobClient :=
  let client := NewAzureBlobClientDefault clientID tenantID containerName storageAccount
  { client with credentialOptions := ⟨true⟩ }

/-- Outcome of `main`. -/
inductive MainOutcome
  | fatal (e : GoError)
  | normal
deriving DecidableEq, Repr

/-- `main` (part_000 lines 191-206): build the default client from the
package-level configuration values (defined in a file outside this
repository snapshot) and download `azureblobtest.txt`; a failure is
surfaced with `log.Fatal`. -/
def mainModel (env : SDKEnv) (clientID tenantID containerName storageAccount : String) :
    MainOutcome :=
  let az := NewAzureBlobClientDefault clientID tenantID containerName storageAccount
  match (Download az env "azureblobtest.txt" "azureblobtest.txt").result with
  | .error e => .fatal e
  | .ok _ => .normal

/-- Is the error one returned by an external SDK / os call (as opposed to
one the program built itself)? -/
def GoError.isSDK : GoError → Bool
  | .sdk _ => true
  | .progNew _ => false

/-- Constructor tags of the external calls of a trace. -/
def tagsOf (tr : List Event) : List Nat := (callsOf tr).map Event.tag

/-- Did every external call of the trace succeed? -/
def allCallsOK (tr : List Event) : Bool := (callsOf tr).all Event.callOK

/-- Fail-fast shape of a call list: every call before the last succeeded
and the last call failed. -/
def failFastCalls : List Event → Bool
  | [] => false
  | ev :: tr => if tr.isEmpty then !ev.callOK else ev.callOK && failFastCalls tr

/-- Fail-fast shape of a trace: every external call before the last
succeeded, and the last external call failed (so nothing ran past the
first failure and nothing was re-attempted after it). -/
def failFast (tr : List Event) : Bool := failFastCalls (callsOf tr)

/-! ### The program's command surface -/

/-- The two verbs of the program. -/
inductive Verb
  | download
  | upload
deriving DecidableEq, Repr

/-- A command: `download` takes an asset name and a local destination
path; `upload` takes a local file and a blob path. -/
inductive Command
  | download (asset destination : String)
  | upload (file : Option Unit) (blobPath : String)
deriving DecidableEq, Repr

/-- The verb of a command. -/
def Command.verb : Command → Verb
  | .download _ _ => .download
  | .upload _ _ => .upload

/-- Result of running a command. -/
inductive CommandResult
  | downloaded (r : DownloadResult)
  | uploaded (r : UploadResult)

/-- Dispatch a command to the corresponding operation. -/
def runCommand (c : AzureBlobClient) (env : SDKEnv) : Command → CommandResult
  | .download asset destination => .downloaded (Download c env asset destination)
  | .upload file blobPath => .uploaded (Upload c env file blobPath)

/-! ### Struct fields of the client, per revision -/

/-- Field names of `AzureBlobClient` in the latest revision
(part_000 lines 24-31). -/
def azureBlobClientFields : List String :=
  ["ClientID", "TenantID", "StorageAccount", "ContainerName",
   "containerClient", "CredentialOptions"]

/-- Field names of `AzureBlobClient` in the middle revision
(main.go second document, lines 80-87). -/
def azureBlobClientFieldsRev2 : List String :=
  ["ClientID", "ClientSecret", "TenantID", "StorageAccount",
   "ContainerName", "containerClient"]

/-- The field list the spec sentence describes: exactly the four
connection parameters plus the cached client handle (written from the
spec, for comparison with the lists read off the source). -/
def specClaimedStateFields : List String :=
  ["ClientID", "TenantID", "StorageAccount", "ContainerName", "containerClient"]

/-! ### Concrete inputs used by witnesses and counterexamples -/

/-- An environment in which every external call succeeds. -/
def envAllOk : SDKEnv :=
  { newInteractiveBrowserCredential := .ok ()
    newDeviceCodeCredential := .ok ()
    newChainedTokenCredential := .ok ()
    newContainerClient := .ok ()
    osCreate := .ok ()
    getProperties := .ok ⟨1024⟩
    truncate := .ok ()
    downloadBlobToFile := .ok ()
    fileStat := .ok ⟨2048⟩
    uploadFileToBlockBlob := .ok ()
    downloadProgress := [512, 1024]
    uploadProgress := [1024, 2048] }

/-- An environment in which `GetProperties` fails with an SDK error. -/
def envGetPropsFail : SDKEnv :=
  { envAllOk with getProperties := .error (GoError.sdk "GetProperties failed") }

/-- An environment in which the device-code credential constructor fails. -/
def envDeviceCodeFail : SDKEnv :=
  { envAllOk with newDeviceCodeCredential := .error (GoError.sdk "device code failed") }

/-- An environment in which the interactive browser credential constructor
fails. -/
def envInteractiveFail : SDKEnv :=
  { envAllOk with newInteractiveBrowserCredential := .error (GoError.sdk "interactive failed") }

/-- A fresh default client, as `main` builds it. -/
def cFresh : AzureBlobClient := NewAzureBlobClientDefault "cid" "tid" "cont" "sa"

/-- A client on which `init` has already succeeded. -/
def cInit : AzureBlobClient :=
  { cFresh with containerClient := some ⟨containerURL cFresh⟩ }

/-- A device-code message of the shape the SDK produces, containing the
verification URL. -/
def sampleDeviceCodeMessage : String :=
  "To sign in, use a web browser to open the page " ++
  "https://microsoft.com/devicelogin and enter the code ABCD1234 to authenticate."

/-! ### Helper lemmas about traces -/

theorem runProgress_events (d : Bool) (s : Int) (pb : ProgressBar) (rs : List Int) :
    (runProgress d s pb rs).2 =
      rs.map (fun n => Event.consoleWrite (ProgressBar.render ⟨pb.maxBytes, n, pb.desc⟩)) := by
  induction rs generalizing pb with
  | nil => rfl
  | cons n rest ih =>
    simp [runProgress, bytesTransferredFn, ProgressBar.set64, ih]

theorem callsOf_append (a b : List Event) :
    callsOf (a ++ b) = callsOf a ++ callsOf b := by
  simp [callsOf, List.filter_append]

theorem callsOf_runProgress (d : Bool) (s : Int) (pb : ProgressBar) (rs : List Int) :
    callsOf (runProgress d s pb rs).2 = [] := by
  rw [runProgress_events]
  induction rs with
  | nil => rfl
  | cons n rest ih => simp [callsOf, Event.isCall, ih]

theorem writesOf_append (a b : List Event) :
    writesOf (a ++ b) = writesOf a ++ writesOf b := by
  induction a with
  | nil => rfl
  | cons ev tr ih => cases ev <;> simp [writesOf, ih]

theorem writesOf_runProgress (d : Bool) (s : Int) (pb : ProgressBar) (rs : List Int) :
    writesOf (runProgress d s pb rs).2 =
      rs.map (fun n => ProgressBar.render ⟨pb.maxBytes, n, pb.desc⟩) := by
  rw [runProgress_events]
  induction rs with
  | nil => rfl
  | cons n rest ih => simp [writesOf, ih]

theorem tagsOf_append (a b : List Event) :
    tagsOf (a ++ b) = tagsOf a ++ tagsOf b := by
  simp [tagsOf, callsOf_append]

theorem tagsOf_runProgress (d : Bool) (s : Int) (pb : ProgressBar) (rs : List Int) :
    tagsOf (runProgress d s pb rs).2 = [] := by
  simp [tagsOf, callsOf_runProgress]

theorem allCallsOK_append (a b : List Event) :
    allCallsOK (a ++ b) = (allCallsOK a && allCallsOK b) := by
  simp [allCallsOK, callsOf_append]

theorem failFastCalls_append (a b : List Event) (ha : a.all Event.callOK = true)
    (hb : b ≠ []) : failFastCalls (a ++ b) = failFastCalls b := by
  induction a with
  | nil => rfl
  | cons ev tr ih =>
    have hab : (tr ++ b).isEmpty = false := by
      simp only [List.isEmpty_eq_false, ne_eq, List.append_eq_nil]
      rintro ⟨-, hb'⟩
      exact hb hb'
    simp only [List.all_cons, Bool.and_eq_true] at ha
    rw [List.cons_append, failFastCalls, hab, ih ha.2, ha.1]
    simp

theorem failFast_append (a b : List Event) (ha : allCallsOK a = true)
    (hb : callsOf b ≠ []) : failFast (a ++ b) = failFast b := by
  unfold failFast
  rw [callsOf_append]
  exact failFastCalls_append _ _ ha hb

theorem tags_lt_append_nodup (a b : List Event)
    (hna : (tagsOf a).Nodup) (hnb : (tagsOf b).Nodup)
    (hla : ∀ t ∈ tagsOf a, t < 4) (hlb : ∀ t ∈ tagsOf b, 4 ≤ t) :
    (tagsOf (a ++ b)).Nodup := by
  rw [tagsOf_append]
  refine List.Nodup.append hna hnb ?_
  intro t hta htb
  exact absurd (hlb t htb) (Nat.not_le.mpr (hla t hta))

theorem initClient_no_retry (env : SDKEnv) (c : AzureBlobClient) :
    ((initClient c env).result = .ok () → allCallsOK (initClient c env).trace = true) ∧
    (∀ e, (initClient c env).result = .error e → failFast (initClient c env).trace = true) ∧
    (tagsOf (initClient c env).trace).Nodup ∧
    (∀ t ∈ tagsOf (initClient c env).trace, t < 4) ∧
    (∀ ev ∈ (initClient c env).trace, ev.isAuth = true) := by
  rcases hcc : c.containerClient with _ | cc
  · cases hic : c.credentialOptions.interactiveCredential <;>
    cases hib : env.newInteractiveBrowserCredential <;>
    cases hdc : env.newDeviceCodeCredential <;>
    cases hch : env.newChainedTokenCredential <;>
    cases hco : env.newContainerClient <;>
    simp_all [initClient, InitCredential, InitContainerClient, tagsOf, callsOf,
      failFast, failFastCalls, allCallsOK, Event.isCall, Event.tag, Event.callOK,
      Event.isAuth]
  · simp [initClient, hcc, tagsOf, callsOf, failFast, allCallsOK]

theorem download_no_retry (env : SDKEnv) (c : AzureBlobClient) (a d : String) :
    (tagsOf (Download c env a d).trace).Nodup ∧
    (∀ e, (Download c env a d).result = .error e →
      failFast (Download c env a d).trace = true) := by
  obtain ⟨hok, herr, hnd, hlt, -⟩ := initClient_no_retry env c
  rcases hI : initClient c env with ⟨c1, r, tr0⟩
  rw [hI] at hok herr hnd hlt
  rcases r with e0 | u
  · refine ⟨?_, fun e' he' => ?_⟩ <;> simp only [Download, hI]
    · exact hnd
    · exact herr e0 rfl
  · have h0 : allCallsOK tr0 = true := hok rfl
    cases hcr : env.osCreate <;>
    cases hgp : env.getProperties <;>
    cases htr : env.truncate <;>
    cases hdl : env.downloadBlobToFile <;>
    simp only [Download, hI, hcr, hgp, htr, hdl, List.append_assoc] <;>
    refine ⟨tags_lt_append_nodup _ _ hnd ?_ hlt ?_, fun e' he' => ?_⟩ <;>
    first
      | (try simp only [tagsOf_append, tagsOf_runProgress]
         simp [tagsOf, callsOf, Event.isCall, Event.tag] <;> decide)
      | (simp at he'
         done)
      | (rw [failFast_append _ _ h0
            (by simp only [callsOf_append, callsOf_runProgress]
                simp [callsOf, Event.isCall])]
         simp only [failFast, callsOf_append, callsOf_runProgress]
         simp [callsOf, Event.isCall, failFastCalls, Event.callOK]
         done)

theorem upload_no_retry (env : SDKEnv) (c : AzureBlobClient) (f : Option Unit)
    (p : String) :
    (tagsOf (Upload c env f p).trace).Nodup ∧
    (∀ e, (Upload c env f p).result = .error e →
      (failFast (Upload c env f p).trace = true) ∨
      (e = nilFileError ∧ allCallsOK (Upload c env f p).trace = true)) := by
  obtain ⟨hok, herr, hnd, hlt, -⟩ := initClient_no_retry env c
  rcases hI : initClient c env with ⟨c1, r, tr0⟩
  rw [hI] at hok herr hnd hlt
  rcases r with e0 | u
  · refine ⟨?_, fun e' he' => ?_⟩ <;> simp only [Upload, hI]
    · exact hnd
    · exact Or.inl (herr e0 rfl)
  · have h0 : allCallsOK tr0 = true := hok rfl
    cases f <;>
    cases hfs : env.fileStat <;>
    cases hup : env.uploadFileToBlockBlob <;>
    simp only [Upload, hI, hfs, hup, List.append_assoc] <;>
    refine ⟨tags_lt_append_nodup _ _ hnd ?_ hlt ?_, fun e' he' => ?_⟩ <;>
    first
      | (try simp only [tagsOf_append, tagsOf_runProgress]
         simp [tagsOf, callsOf, Event.isCall, Event.tag] <;> decide)
      | (simp at he'
         done)
      | (refine Or.inr ⟨by simpa using he'.symm, ?_⟩
         simp only [allCallsOK_append, h0]
         simp [allCallsOK, callsOf, Event.isCall, Event.callOK]
         done)
      | (refine Or.inl ?_
         rw [failFast_append _ _ h0
            (by simp only [callsOf_append, callsOf_runProgress]
                simp [callsOf, Event.isCall])]
         simp only [failFast, callsOf_append, callsOf_runProgress]
         simp [callsOf, Event.isCall, failFastCalls, Event.callOK]
         done)

theorem authOf_runProgress (d : Bool) (sz : Int) (pb : ProgressBar) (rs : List Int) :
    (runProgress d sz pb rs).2.filter Event.isAuth = [] := by
  rw [runProgress_events]
  induction rs with
  | nil => rfl
  | cons n rest ih => simp [Event.isAuth, ih]

theorem initClient_error_env (env : SDKEnv) (c : AzureBlobClient) (e : GoError)
    (h : (initClient c env).result = .error e) : e ∈ env.errors := by
  rcases hcc : c.containerClient with _ | cc
  · cases hic : c.credentialOptions.interactiveCredential <;>
    cases hib : env.newInteractiveBrowserCredential <;>
    cases hdc : env.newDeviceCodeCredential <;>
    cases hch : env.newChainedTokenCredential <;>
    cases hco : env.newContainerClient <;>
    simp_all [initClient, InitCredential, InitContainerClient, SDKEnv.errors, errList]
  · simp [initClient, hcc] at h

theorem initClient_ok_auth_events (c : AzureBlobClient) (env : SDKEnv)
    (hc : c.containerClient = none) (hok : (initClient c env).result = .ok ()) :
    Event.newDeviceCodeCredential c.tenantID c.clientID true ∈ (initClient c env).trace ∧
    Event.newContainerClient (containerURL c) true ∈ (initClient c env).trace ∧
    (initClient c env).client = { c with containerClient := some ⟨containerURL c⟩ } := by
  cases hic : c.credentialOptions.interactiveCredential <;>
  cases hib : env.newInteractiveBrowserCredential <;>
  cases hdc : env.newDeviceCodeCredential <;>
  cases hch : env.newChainedTokenCredential <;>
  cases hco : env.newContainerClient <;>
  simp_all [initClient, InitCredential, InitContainerClient]

theorem replaceFirstAux_no_occurrence (pat rep cs : List Char)
    (h : occursIn pat cs = false) : replaceFirstAux pat rep cs = cs := by
  induction cs with
  | nil => rfl
  | cons c cs ih =>
    simp only [occursIn, Bool.or_eq_false_iff] at h
    simp [replaceFirstAux, h.1, ih h.2]

theorem replaceFirstAux_head (pat rep tail : List Char) (hne : pat ≠ []) :
    replaceFirstAux pat rep (pat ++ tail) = rep ++ tail := by
  rcases hp : pat with _ | ⟨p, ps⟩
  · exact absurd hp hne
  · have hpre : (p :: ps).isPrefixOf (p :: ps ++ tail) = true := by
      rw [List.isPrefixOf_iff_prefix]
      exact List.prefix_append _ _
    have hdrop : (p :: ps ++ tail).drop (p :: ps).length = tail := List.drop_left _ _
    rw [List.cons_append, replaceFirstAux]
    rw [← List.cons_append, hpre]
    simp [hdrop]

/-! ### Claim theorems -/

/-- Claim C1, counterexample: the claim that every error surfaced by
Download or Upload is an unmodified SDK error is false: with every external
call succeeding, `Upload` on a nil file returns the program-constructed
error `errors.New("file cannot be nil")`, which no SDK call produced. -/
theorem upload_nil_error_not_from_sdk_cex :
    (Upload cInit envAllOk none "up.txt").result = .error nilFileError ∧
    nilFileError ∉ envAllOk.errors ∧
    nilFileError.isSDK = false :=
  ⟨rfl, by decide, rfl⟩

/-- Claim C1, amended: every error returned by `Download` is an unmodified
error of some underlying SDK / os call; every error returned by `Upload` is
either such an SDK error or the single program-constructed guard error
`"file cannot be nil"`; and `main` surfaces a `Download` error by
terminating with a fatal log of exactly that error. -/
theorem errors_unmodified_amended :
    (∀ env c a d e, (Download c env a d).result = .error e → e ∈ env.errors) ∧
    (∀ env c f p e, (Upload c env f p).result = .error e →
      e ∈ env.errors ∨ e = nilFileError) ∧
    (∀ env cid tid cn sa e,
      (Download (NewAzureBlobClientDefault cid tid cn sa) env
        "azureblobtest.txt" "azureblobtest.txt").result = .error e →
      mainModel env cid tid cn sa = MainOutcome.fatal e) := by
  refine ⟨?_, ?_, ?_⟩
  · intro env c a d e h
    rcases hI : initClient c env with ⟨c1, r, tr0⟩
    rcases r with e0 | u
    · have he0 : (initClient c env).result = .error e0 := by rw [hI]
      have hD : Download c env a d = ⟨c1, .error e0, tr0, none⟩ := by
        simp [Download, hI]
      rw [hD] at h
      obtain rfl : e0 = e := by simpa using h
      exact initClient_error_env env c e0 he0
    · cases hcr : env.osCreate <;>
      cases hgp : env.getProperties <;>
      cases htr : env.truncate <;>
      cases hdl : env.downloadBlobToFile <;>
      simp_all [Download, SDKEnv.errors, errList]
  · intro env c f p e h
    rcases hI : initClient c env with ⟨c1, r, tr0⟩
    rcases r with e0 | u
    · have he0 : (initClient c env).result = .error e0 := by rw [hI]
      have hU : Upload c env f p = ⟨c1, .error e0, tr0⟩ := by
        simp [Upload, hI]
      rw [hU] at h
      obtain rfl : e0 = e := by simpa using h
      exact Or.inl (initClient_error_env env c e0 he0)
    · cases f <;>
      cases hfs : env.fileStat <;>
      cases hup : env.uploadFileToBlockBlob <;>
      simp_all [Upload, SDKEnv.errors, errList, nilFileError]
  · intro env cid tid cn sa e h
    simp [mainModel, h]

/-- Claim C1 witness: at a concrete environment whose `GetProperties` call
fails, the error Download returns is the SDK error of that environment, and
main terminates fatally with it. -/
theorem errors_unmodified_amended_witness :
    GoError.sdk "GetProperties failed" ∈ envGetPropsFail.errors ∧
    mainModel envGetPropsFail "cid" "tid" "cont" "sa" =
      MainOutcome.fatal (GoError.sdk "GetProperties failed") :=
  ⟨errors_unmodified_amended.1 envGetPropsFail cFresh "a" "d" _ (by rfl),
   errors_unmodified_amended.2.2 envGetPropsFail "cid" "tid" "cont" "sa" _ (by rfl)⟩

/-- Claim C2: for every asset name and destination path, a successful
`Download` on a fresh default client authenticates against Azure Active
Directory (constructs the device-code credential, the chained credential,
and the container client), transfers the single named blob from the
container to the local destination file, and every progress-callback
invocation writes to the console the transferred byte count relative to
the blob's content length. -/
theorem download_success_full :
    ∀ env c asset destination props,
      c.containerClient = none →
      c.credentialOptions.interactiveCredential = false →
      env.newDeviceCodeCredential = .ok () →
      env.newChainedTokenCredential = .ok () →
      env.newContainerClient = .ok () →
      env.osCreate = .ok () →
      env.getProperties = .ok props →
      env.truncate = .ok () →
      env.downloadBlobToFile = .ok () →
      (Download c env asset destination).result = .ok () ∧
      Event.newDeviceCodeCredential c.tenantID c.clientID true
        ∈ (Download c env asset destination).trace ∧
      Event.newChainedTokenCredential 1 true ∈ (Download c env asset destination).trace ∧
      Event.newContainerClient (containerURL c) true
        ∈ (Download c env asset destination).trace ∧
      Event.newBlobClient asset ∈ (Download c env asset destination).trace ∧
      Event.osCreate destination true ∈ (Download c env asset destination).trace ∧
      Event.truncate props.contentLength true ∈ (Download c env asset destination).trace ∧
      Event.downloadBlobToFile true ∈ (Download c env asset destination).trace ∧
      writesOf (Download c env asset destination).trace =
        env.downloadProgress.map (fun n =>
          ProgressBar.render ⟨props.contentLength, n, "Downloading " ++ asset⟩) := by
  intro env c asset destination props hc hic hdc hch hco hcr hgp htr hdl
  simp [Download, initClient, InitCredential, InitContainerClient,
    hc, hic, hdc, hch, hco, hcr, hgp, htr, hdl,
    writesOf_append, writesOf_runProgress, writesOf, ProgressBar.defaultBytesSilent]

/-- Claim C2 witness: the property at a concrete fresh client and
all-succeeding environment reporting progress at 512 and 1024 of 1024
bytes. -/
theorem download_success_full_witness :
    (Download cFresh envAllOk "blob.txt" "dest.txt").result = .ok () ∧
    Event.newDeviceCodeCredential "tid" "cid" true
      ∈ (Download cFresh envAllOk "blob.txt" "dest.txt").trace ∧
    writesOf (Download cFresh envAllOk "blob.txt" "dest.txt").trace =
      ["Downloading blob.txt 512/1024", "Downloading blob.txt 1024/1024"] := by
  obtain ⟨h1, h2, -, -, -, -, -, -, h9⟩ :=
    download_success_full envAllOk cFresh "blob.txt" "dest.txt" ⟨1024⟩
      rfl rfl rfl rfl rfl rfl rfl rfl rfl
  exact ⟨h1, h2, by rw [h9]; rfl⟩

/-- Claim C3, counterexample: the claim that the client struct holds
exactly the four connection parameters plus the cached handle is false in
every surviving revision with a struct: the latest revision adds a
`CredentialOptions` field and the middle revision adds a `ClientSecret`
field, neither of which is among the claimed fields. -/
theorem client_state_fields_cex :
    "CredentialOptions" ∈ azureBlobClientFields ∧
    "CredentialOptions" ∉ specClaimedStateFields ∧
    "ClientSecret" ∈ azureBlobClientFieldsRev2 ∧
    "ClientSecret" ∉ specClaimedStateFields := by decide

/-- Claim C3, amended: the client struct holds the four connection
parameters and the cached client handle plus exactly one extra field per
revision (`CredentialOptions` in the latest, `ClientSecret` in the middle
revision); client id and tenant id are passed unchanged to the credential
constructor, while storage account and container name reach the
container-client constructor embedded unchanged in the container URL. -/
theorem client_state_fields_amended :
    azureBlobClientFields.filter
      (fun f => !specClaimedStateFields.contains f) = ["CredentialOptions"] ∧
    azureBlobClientFieldsRev2.filter
      (fun f => !specClaimedStateFields.contains f) = ["ClientSecret"] ∧
    (∀ f ∈ specClaimedStateFields, f ∈ azureBlobClientFields) ∧
    (∀ f ∈ specClaimedStateFields, f ∈ azureBlobClientFieldsRev2) ∧
    (∀ c env, c.containerClient = none → (initClient c env).result = .ok () →
      Event.newDeviceCodeCredential c.tenantID c.clientID true ∈ (initClient c env).trace ∧
      Event.newContainerClient (containerURL c) true ∈ (initClient c env).trace) ∧
    (∀ c, containerURL c =
      "https://" ++ c.storageAccount ++ ".blob.core.windows.net/" ++ c.containerName) := by
  refine ⟨by decide, by decide, by decide, by decide, ?_, fun c => rfl⟩
  intro c env hc hok
  obtain ⟨h1, h2, -⟩ := initClient_ok_auth_events c env hc hok
  exact ⟨h1, h2⟩

/-- Claim C3 witness: the amended claim at a concrete fresh client and
all-succeeding environment. -/
theorem client_state_fields_amended_witness :
    "ClientID" ∈ azureBlobClientFields ∧
    Event.newDeviceCodeCredential "tid" "cid" true ∈ (initClient cFresh envAllOk).trace ∧
    containerURL cFresh = "https://sa.blob.core.windows.net/cont" := by
  refine ⟨client_state_fields_amended.2.2.1 "ClientID" (by decide), ?_, ?_⟩
  · exact (client_state_fields_amended.2.2.2.2.1 cFresh envAllOk rfl (by rfl)).1
  · exact client_state_fields_amended.2.2.2.2.2 cFresh

/-- Claim C4, counterexample: the device-code prompt printed to stdout is
not the SDK's message unaltered: on a message containing the verification
URL, the program prints the message with the URL rewritten to the
`aka.ms` shortlink, a different string. -/
theorem device_prompt_altered_cex :
    userPromptOutput sampleDeviceCodeMessage =
      "To sign in, use a web browser to open the page " ++
      "https://aka.ms/devicelogin and enter the code ABCD1234 to authenticate." ∧
    sampleDeviceCodeMessage ≠
      "To sign in, use a web browser to open the page " ++
      "https://aka.ms/devicelogin and enter the code ABCD1234 to authenticate." :=
  ⟨rfl, by decide⟩

/-- Claim C4, amended: the device-code prompt printed to stdout is the
SDK's message with its first occurrence of
`https://microsoft.com/devicelogin` replaced by `https://aka.ms/devicelogin`
(a message without that URL is printed unaltered), and every
transfer-progress console write is exactly the rendering of the progress
bar set to the byte count the SDK's callback reported. -/
theorem device_prompt_amended :
    (∀ message : String,
      occursIn microsoftDeviceLoginURL.data message.data = false →
      userPromptOutput message = message) ∧
    (∀ tail : List Char,
      userPromptOutput ⟨microsoftDeviceLoginURL.data ++ tail⟩ =
        ⟨akaMSDeviceLoginURL.data ++ tail⟩) ∧
    (∀ (isDownload : Bool) (size n : Int) (pb : ProgressBar),
      bytesTransferredFn isDownload size pb n = (pb.set64 n, (pb.set64 n).render)) := by
  refine ⟨?_, ?_, fun isDownload size n pb => rfl⟩
  · intro message h
    show (⟨replaceFirstAux microsoftDeviceLoginURL.data akaMSDeviceLoginURL.data
        message.data⟩ : String) = message
    rw [replaceFirstAux_no_occurrence _ _ _ h]
  · intro tail
    show (⟨replaceFirstAux microsoftDeviceLoginURL.data akaMSDeviceLoginURL.data
        (microsoftDeviceLoginURL.data ++ tail)⟩ : String) =
      ⟨akaMSDeviceLoginURL.data ++ tail⟩
    rw [replaceFirstAux_head _ _ _ (by decide)]

/-- Claim C4 witness: a URL-free message prints unaltered, and a message
starting with the verification URL prints with the shortlink substituted. -/
theorem device_prompt_amended_witness :
    userPromptOutput "no link here" = "no link here" ∧
    userPromptOutput ⟨microsoftDeviceLoginURL.data ++ (" code X").data⟩ =
      ⟨akaMSDeviceLoginURL.data ++ (" code X").data⟩ :=
  ⟨device_prompt_amended.1 "no link here" (by decide),
   device_prompt_amended.2.1 (" code X").data⟩

/-- Claim C5: the program's externally meaningful surface is exactly the
two verbs `download` and `upload`; a `download` command carries an asset
name and a local destination path and runs `Download` on them, and an
`upload` command carries a local file and a blob path and runs `Upload` on
them. -/
theorem command_surface_two_verbs :
    (∀ v : Verb, v = Verb.download ∨ v = Verb.upload) ∧
    (∀ cmd : Command,
      (∃ asset destination, cmd = Command.download asset destination) ∨
      (∃ file blobPath, cmd = Command.upload file blobPath)) ∧
    (∀ asset destination, (Command.download asset destination).verb = Verb.download) ∧
    (∀ file blobPath, (Command.upload file blobPath).verb = Verb.upload) ∧
    (∀ c env asset destination,
      runCommand c env (Command.download asset destination) =
        CommandResult.downloaded (Download c env asset destination)) ∧
    (∀ c env file blobPath,
      runCommand c env (Command.upload file blobPath) =
        CommandResult.uploaded (Upload c env file blobPath)) := by
  refine ⟨fun v => ?_, fun cmd => ?_, fun _ _ => rfl, fun _ _ => rfl,
    fun _ _ _ _ => rfl, fun _ _ _ _ => rfl⟩
  · cases v
    · exact Or.inl rfl
    · exact Or.inr rfl
  · cases cmd with
    | download a d => exact Or.inl ⟨a, d, rfl⟩
    | upload f p => exact Or.inr ⟨f, p, rfl⟩

/-- Claim C6: the program never retries, recovers from, or continues past
a failure: in every run of Download and Upload no external call is
attempted twice (the call tags are distinct); whenever an error is
returned, every external call before the last one succeeded and the last
one failed (the one exception being Upload's program-level nil-file guard,
where all external calls succeeded); and when the interactive credential
constructor fails, `InitCredential` returns exactly that error without
attempting the device-code constructor — any interactive/device-code
fallback lives inside the SDK's chained credential. -/
theorem no_retry_no_recovery :
    ∀ env c a d f p,
      (tagsOf (Download c env a d).trace).Nodup ∧
      (tagsOf (Upload c env f p).trace).Nodup ∧
      (∀ e, (Download c env a d).result = .error e →
        failFast (Download c env a d).trace = true) ∧
      (∀ e, (Upload c env f p).result = .error e →
        failFast (Upload c env f p).trace = true ∨
        (e = nilFileError ∧ allCallsOK (Upload c env f p).trace = true)) ∧
      (∀ e, env.newInteractiveBrowserCredential = .error e →
        InitCredential c env ⟨true⟩ =
          (.error e, [Event.newInteractiveBrowserCredential c.tenantID c.clientID
            "http://localhost:9090" false])) := by
  intro env c a d f p
  obtain ⟨hd1, hd2⟩ := download_no_retry env c a d
  obtain ⟨hu1, hu2⟩ := upload_no_retry env c f p
  refine ⟨hd1, hu1, hd2, hu2, ?_⟩
  intro e he
  simp [InitCredential, he]

/-- Claim C6 witness: at a concrete failing `GetProperties` environment,
the trace of the failed Download is fail-fast, and a failing interactive
constructor is returned without a device-code attempt. -/
theorem no_retry_no_recovery_witness :
    failFast (Download cFresh envGetPropsFail "a" "d").trace = true ∧
    InitCredential cFresh envInteractiveFail ⟨true⟩ =
      (.error (GoError.sdk "interactive failed"),
       [Event.newInteractiveBrowserCredential "tid" "cid" "http://localhost:9090" false]) :=
  ⟨(no_retry_no_recovery envGetPropsFail cFresh "a" "d" none "p").2.2.1
     (GoError.sdk "GetProperties failed") (by rfl),
   (no_retry_no_recovery envInteractiveFail cFresh "a" "d" none "p").2.2.2.2
     (GoError.sdk "interactive failed") rfl⟩

/-- Claim C8: client initialization is idempotent and caches its result:
on a client whose container client is already set, `init` returns nil
without any external call and leaves the client unchanged, and every later
Download or Upload on that client performs no authentication or
client-construction call and leaves the cached client unchanged. -/
theorem init_cached_idempotent :
    ∀ env c cc, c.containerClient = some cc →
      initClient c env = ⟨c, .ok (), []⟩ ∧
      (∀ a d, (Download c env a d).trace.filter Event.isAuth = [] ∧
        (Download c env a d).client = c) ∧
      (∀ f p, (Upload c env f p).trace.filter Event.isAuth = [] ∧
        (Upload c env f p).client = c) := by
  intro env c cc h
  refine ⟨by simp [initClient, h], fun a d => ?_, fun f p => ?_⟩
  · cases hcr : env.osCreate <;>
    cases hgp : env.getProperties <;>
    cases htr : env.truncate <;>
    cases hdl : env.downloadBlobToFile <;>
    simp [Download, initClient, h, hcr, hgp, htr, hdl,
      List.filter_append, authOf_runProgress, Event.isAuth]
  · cases f <;>
    cases hfs : env.fileStat <;>
    cases hup : env.uploadFileToBlockBlob <;>
    simp [Upload, initClient, h, hfs, hup,
      List.filter_append, authOf_runProgress, Event.isAuth]

/-- Claim C8 witness: on a concrete already-initialized client, `init`
is a no-op and a Download performs no authentication call. -/
theorem init_cached_idempotent_witness :
    initClient cInit envAllOk = ⟨cInit, .ok (), []⟩ ∧
    (Download cInit envAllOk "a" "d").trace.filter Event.isAuth = [] ∧
    (Download cInit envAllOk "a" "d").client = cInit := by
  obtain ⟨h1, h2, -⟩ :=
    init_cached_idempotent envAllOk cInit ⟨containerURL cFresh⟩ rfl
  exact ⟨h1, (h2 "a" "d").1, (h2 "a" "d").2⟩

/-- Claim C9: Download is not atomic on the local filesystem: the
destination file is created (and truncated to the blob's length) before
any blob data is fetched, so when `GetProperties`, `Truncate`, or the
transfer fails after the file was created, Download returns the error but
leaves the created (empty, truncated, or partially written) destination
file in place. -/
theorem download_leaves_partial_file :
    ∀ env c cc asset destination e,
      c.containerClient = some cc →
      env.osCreate = .ok () →
      ((env.getProperties = .error e →
        (Download c env asset destination).result = .error e ∧
        (Download c env asset destination).destFile = some 0 ∧
        Event.osCreate destination true ∈ (Download c env asset destination).trace) ∧
      (∀ props, env.getProperties = .ok props → env.truncate = .error e →
        (Download c env asset destination).result = .error e ∧
        (Download c env asset destination).destFile = some 0 ∧
        Event.osCreate destination true ∈ (Download c env asset destination).trace) ∧
      (∀ props, env.getProperties = .ok props → env.truncate = .ok () →
        env.downloadBlobToFile = .error e →
        (Download c env asset destination).result = .error e ∧
        (Download c env asset destination).destFile = some props.contentLength ∧
        Event.osCreate destination true ∈ (Download c env asset destination).trace)) := by
  intro env c cc asset destination e hc hcr
  refine ⟨fun hgp => ?_, fun props hgp htr => ?_, fun props hgp htr hdl => ?_⟩ <;>
  simp [Download, initClient, hc, hcr, hgp] <;>
  simp_all

/-- Claim C9 witness: with `GetProperties` failing after a successful
create, the concrete Download errors and leaves an empty destination
file. -/
theorem download_leaves_partial_file_witness :
    (Download cInit envGetPropsFail "a" "d").result =
      .error (GoError.sdk "GetProperties failed") ∧
    (Download cInit envGetPropsFail "a" "d").destFile = some 0 ∧
    Event.osCreate "d" true ∈ (Download cInit envGetPropsFail "a" "d").trace :=
  (download_leaves_partial_file envGetPropsFail cInit ⟨containerURL cFresh⟩
    "a" "d" (GoError.sdk "GetProperties failed") rfl rfl).1 rfl

/-- Claim C10: Upload checks the nil file only after `init` and
block-blob-client construction: when init succeeds, a nil-file Upload
still performed the full initialization and the block-blob-client call and
returns the guard error; when init fails, the init error is returned in
preference to the nil-file error; and a nil-file Upload never performs the
stat or upload SDK calls. -/
theorem upload_nil_check_after_init :
    ∀ env c p,
      ((initClient c env).result = .ok () →
        Upload c env none p =
          ⟨(initClient c env).client, .error nilFileError,
           (initClient c env).trace ++ [Event.newBlockBlobClient p]⟩) ∧
      (∀ e, (initClient c env).result = .error e →
        (Upload c env none p).result = .error e) ∧
      (∀ b, Event.uploadFileToBlockBlob b ∉ (Upload c env none p).trace ∧
        Event.fileStat b ∉ (Upload c env none p).trace) := by
  intro env c p
  obtain ⟨-, -, -, -, hau⟩ := initClient_no_retry env c
  rcases hI : initClient c env with ⟨c1, r, tr0⟩
  rw [hI] at hau
  rcases r with e0 | u
  · refine ⟨fun hok => by simp at hok, fun e he => ?_, fun b => ?_⟩
    · have : e0 = e := by simpa using he
      subst this
      simp [Upload, hI]
    · constructor <;>
      · simp only [Upload, hI]
        intro hmem
        have := hau _ hmem
        simp [Event.isAuth] at this
  · refine ⟨fun _ => by simp [Upload, hI], fun e he => by simp at he, fun b => ?_⟩
    constructor <;>
    · simp only [Upload, hI]
      intro hmem
      rcases List.mem_append.mp hmem with hmem0 | hmem1
      · have := hau _ hmem0
        simp [Event.isAuth] at this
      · simp at hmem1

/-- Claim C10 witness: at a concrete fresh client with every external call
succeeding, a nil-file Upload runs the full init flow, constructs the
block-blob client, and returns the guard error. -/
theorem upload_nil_check_after_init_witness :
    Upload cFresh envAllOk none "up.txt" =
      ⟨(initClient cFresh envAllOk).client, .error nilFileError,
       (initClient cFresh envAllOk).trace ++ [Event.newBlockBlobClient "up.txt"]⟩ ∧
    (Event.uploadFileToBlockBlob true ∉ (Upload cFresh envAllOk none "up.txt").trace) :=
  ⟨(upload_nil_check_after_init envAllOk cFresh "up.txt").1 (by rfl),
   ((upload_nil_check_after_init envAllOk cFresh "up.txt").2.2 true).1⟩
